import Mathlib

/-!
Verification of the HX711 load-cell driver (`src/hx711-rpi.py`).

The driver is shallowly embedded as follows.

* The 24-bit frame decode of `_read_raw` (lines 57-80) becomes the pure
  functions `accumulate` (the MSB-first shift/or loop) and
  `twos_complement24` (line 78, `value = -(value & 0x800000) + (value & 0x7fffff)`).
* The clock-line actions of `_read_raw` and of the `power_down` setter are
  recorded as traces of `Ev` events; `gain_pulses` is the `match` on
  `self._gain` at lines 66-72.
* The instance state (`_gain`, `offset`, `scale`, `_power_down`) is the
  structure `HX711`.  Python floats are modelled as exact rationals; every
  arithmetic operation the driver performs on them (subtraction, division,
  halving inside `statistics.median`) is exact on the values of interest.
* Each operation that reads frames is a function of the state and of the
  stream of signed values that successive `_read_raw` calls would return;
  it yields the result (with Python exceptions as `Except.error`), the new
  state and the unconsumed remainder of the stream, so the number of frames
  an operation reads is visible as the number of dropped stream elements.
* `statistics.median` (sort ascending; odd count: middle element; even
  count: mean of the two middle elements; empty data: `StatisticsError`)
  is `median` below, and Python `int(...)` truncation toward zero is
  `int_of_rat`.
-/

namespace HX711Model

/-- Line 78 of `_read_raw`: reinterpret the accumulated 24-bit pattern as
two's complement, `value = -(value & 0x800000) + (value & 0x7fffff)`. -/
def twos_complement24 (p : Nat) : Int :=
  -((p &&& 0x800000 : Nat) : Int) + ((p &&& 0x7fffff : Nat) : Int)

/-- Lines 58-63 of `_read_raw`: the accumulator loop
`value = (value << 1) | bit` over the 24 sampled bits, MSB first. -/
def accumulate (bits : List Nat) : Nat :=
  bits.foldl (fun v b => (v <<< 1) ||| b) 0

/-- The decoded signed value `_read_raw` returns, as a function of the 24
bits sampled from the data line. -/
def read_raw_value (bits : List Nat) : Int :=
  twos_complement24 (accumulate bits)

/-- A physical action on the clock/data lines or on the delay primitive. -/
inductive Ev where
  | sckHigh : Ev
  | sckLow : Ev
  | sampleDt : Ev
  | sleepUs : ℚ → Ev
  | rawRead : Ev
deriving DecidableEq, Repr

/-- Lines 66-72 of `_read_raw`: `match self._gain` with `case 64` giving 3
pulses, `case 32` giving 2, and the default case giving 1. -/
def gain_pulses (gain : Nat) : Nat :=
  match gain with
  | 64 => 3
  | 32 => 2
  | _ => 1

/-- The clock/sample actions of one `_read_raw` call (lines 57-75):
24 iterations of clock-high, clock-low, sample-data, followed by
`gain_pulses` iterations of clock-high, clock-low. -/
def read_raw_events (gain : Nat) : List Ev :=
  (List.replicate 24 [Ev.sckHigh, Ev.sckLow, Ev.sampleDt]).flatten ++
    (List.replicate (gain_pulses gain) [Ev.sckHigh, Ev.sckLow]).flatten

/-- Python `statistics.median`: sort ascending; for odd length the middle
element, for even length the mean of the two middle elements, and a
`StatisticsError` (here `none`) on empty data. -/
def median (xs : List ℚ) : Option ℚ :=
  let s := xs.insertionSort (fun a b => a ≤ b)
  if s.length = 0 then none
  else if s.length % 2 = 1 then some (s.getD (s.length / 2) 0)
  else some ((s.getD (s.length / 2 - 1) 0 + s.getD (s.length / 2) 0) / 2)

/-- Python `int(...)` applied to a number: truncation toward zero. -/
def int_of_rat (q : ℚ) : Int :=
  q.num.tdiv (q.den : Int)

/-- The mutable state of one `HX711` instance: `_gain`, `offset`, `scale`
and `_power_down` (lines 30-33).  The two pin numbers are immutable
identity fields and play no role in the verified behaviour. -/
structure HX711 where
  gain : Nat
  offset : Int
  scale : ℚ
  power_down : Bool
deriving DecidableEq, Repr

/-- The `power_down` setter (lines 165-179): equal value is a no-op with no
line activity; turning the power off drives the clock low then high and
sleeps 60 microseconds with the clock held high; turning it on drives the
clock low and performs one discard `_read_raw`. -/
def set_power_down (st : HX711) (v : Bool) : HX711 × List Ev :=
  if v = st.power_down then (st, [])
  else if v then ({ st with power_down := true }, [Ev.sckLow, Ev.sckHigh, Ev.sleepUs 60])
  else ({ st with power_down := false }, [Ev.sckLow, Ev.rawRead])

/-- The prologue `if self._power_down: self.power_down = False` shared by
`tare`, `calibrate`, `get_weight` and the gain setter: the wake transition
consumes one frame from the stream for its discard `_read_raw`. -/
def auto_wake (st : HX711) (stream : List Int) : HX711 × List Int :=
  if st.power_down then ((set_power_down st false).1, stream.drop 1)
  else (st, stream)

/-- `tare` (lines 82-98): auto-wake, read `samples` frames, set `offset` to
`int(median(values))` and return it.  `median` of an empty collection
raises `StatisticsError`, which propagates before `offset` is assigned. -/
def tare (st : HX711) (stream : List Int) (samples : Nat) :
    Except String Int × HX711 × List Int :=
  let ws := auto_wake st stream
  let values : List Int := ws.2.take samples
  let rest := ws.2.drop samples
  match median (values.map (fun v : Int => (v : ℚ))) with
  | none => (Except.error ("statistics.StatisticsError: no median for empty data"), ws.1, rest)
  | some m =>
      (Except.ok (int_of_rat m), { ws.1 with offset := int_of_rat m }, rest)

/-- `calibrate` (lines 100-117): auto-wake, read `samples` frames, subtract
the current `offset` from each, set `scale` to `median(values) /
reference_weight` and return it.  An empty collection raises
`StatisticsError` inside `median`; a zero reference weight raises
`ZeroDivisionError`; either propagates before `scale` is assigned. -/
def calibrate (st : HX711) (stream : List Int) (reference_weight : ℚ) (samples : Nat) :
    Except String ℚ × HX711 × List Int :=
  let ws := auto_wake st stream
  let values : List ℚ := (ws.2.take samples).map (fun v : Int => (v : ℚ) - ((ws.1).offset : ℚ))
  let rest := ws.2.drop samples
  match median values with
  | none => (Except.error ("statistics.StatisticsError: no median for empty data"), ws.1, rest)
  | some m =>
      if reference_weight = 0 then
        (Except.error ("ZeroDivisionError: float division by zero"), ws.1, rest)
      else
        (Except.ok (m / reference_weight), { ws.1 with scale := m / reference_weight }, rest)

/-- `get_weight` (lines 119-128): auto-wake, read one frame and return
`(raw - offset) / scale`; a zero `scale` would raise `ZeroDivisionError`. -/
def get_weight (st : HX711) (stream : List Int) :
    Except String ℚ × HX711 × List Int :=
  let ws := auto_wake st stream
  let r : Int := ws.2.headD 0
  let rest := ws.2.drop 1
  if (ws.1).scale = 0 then
    (Except.error ("ZeroDivisionError: float division by zero"), ws.1, rest)
  else
    (Except.ok (((r : ℚ) - ((ws.1).offset : ℚ)) / (ws.1).scale), ws.1, rest)

/-- The `gain` property getter (lines 130-141): `return self._gain`. -/
def gain_get (st : HX711) : Nat × HX711 :=
  (st.gain, st)

/-- The `power_down` property getter (lines 155-163):
`return self._power_down`. -/
def power_down_get (st : HX711) : Bool × HX711 :=
  (st.power_down, st)

/-- The `gain` setter (lines 143-153): reject values outside 128, 64, 32;
equal value is a no-op; otherwise store the new gain, auto-wake if powered
down, and perform one discard `_read_raw`. -/
def set_gain (st : HX711) (stream : List Int) (v : Nat) :
    Except String Unit × HX711 × List Int :=
  if ¬(v = 128 ∨ v = 64 ∨ v = 32) then
    (Except.error ("ValueError: gain must be one of 128, 64, 32."), st, stream)
  else if v = st.gain then (Except.ok (), st, stream)
  else
    let ws := auto_wake { st with gain := v } stream
    (Except.ok (), ws.1, ws.2.drop 1)

/-- `__init__` (lines 18-40): reject a gain outside 128, 64, 32 before any
driver state exists or any line is touched; otherwise start with
`offset = 0`, `scale = 1`, not powered down, and perform one discard
`_read_raw`. -/
def hx711_init (gain : Nat) (stream : List Int) :
    Except String (HX711 × List Int) :=
  if ¬(gain = 128 ∨ gain = 64 ∨ gain = 32) then
    Except.error ("ValueError: gain must be one of 128, 64, 32.")
  else
    Except.ok ({ gain := gain, offset := 0, scale := 1, power_down := false }, stream.drop 1)

/-- Any run of the accumulator loop over bits (values at most 1) stays
below `2 ^ (number of bits)`: the pattern fed to the sign decode after 24
samples is a genuine 24-bit pattern. -/
theorem accumulate_lt_two_pow (bits : List Nat) (h : ∀ b ∈ bits, b ≤ 1) :
    accumulate bits < 2 ^ bits.length := by
  have aux : ∀ (l : List Nat), (∀ b ∈ l, b ≤ 1) → ∀ (v k : Nat), v < 2 ^ k →
      l.foldl (fun a b => (a <<< 1) ||| b) v < 2 ^ (k + l.length) := by
    intro l
    induction l with
    | nil => intro _ v k hv; simpa using hv
    | cons b bs ih =>
      intro hl v k hv
      have hb : b ≤ 1 := hl b (by simp)
      have h1 : (v <<< 1) ||| b < 2 ^ (k + 1) := by
        apply Nat.or_lt_two_pow
        · rw [Nat.shiftLeft_eq]
          calc v * 2 ^ 1 < 2 ^ k * 2 ^ 1 := by
                have h2 : (0 : Nat) < 2 ^ 1 := by norm_num
                exact (Nat.mul_lt_mul_right h2).mpr hv
            _ = 2 ^ (k + 1) := by rw [← pow_add]
        · have : (1 : Nat) < 2 ^ (k + 1) := by
            have : (2 : Nat) ^ 1 ≤ 2 ^ (k + 1) := Nat.pow_le_pow_right (by norm_num) (by omega)
            omega
          omega
      have h2 := ih (fun x hx => hl x (by simp [hx])) ((v <<< 1) ||| b) (k + 1) h1
      simpa [Nat.add_assoc, Nat.add_comm, Nat.add_left_comm] using h2
  simpa using aux bits h 0 0 (by norm_num)

/-- C1: for every 24-bit unsigned pattern `p`, the sign decode at line 78
returns `(p & 0x7fffff) - 0x800000` (equivalently `p - 0x1000000`) when
bit 23 of `p` is set, and returns `p` unchanged otherwise. -/
theorem read_raw_twos_complement_decode (p : Nat) (hp : p < 2 ^ 24) :
    (p.testBit 23 = true →
      twos_complement24 p = ((p &&& 0x7fffff : Nat) : Int) - 0x800000 ∧
      twos_complement24 p = (p : Int) - 0x1000000) ∧
    (p.testBit 23 = false → twos_complement24 p = (p : Int)) := by
  have hp' : p < 16777216 := by norm_num at hp; exact hp
  have hmask : p &&& 0x7fffff = p % 8388608 := by
    have h := Nat.and_pow_two_sub_one_eq_mod p 23
    norm_num at h
    exact h
  have htb : p.testBit 23 = decide (p / 8388608 % 2 = 1) := by
    have h := Nat.testBit_to_div_mod (x := p) (i := 23)
    norm_num at h
    exact h
  have hand : p &&& 0x800000 = (p.testBit 23).toNat * 8388608 := by
    have h := Nat.and_two_pow p 23
    norm_num at h
    exact h
  constructor
  · intro ht
    have hdiv : p / 8388608 % 2 = 1 := by
      rw [ht] at htb
      exact of_decide_eq_true htb.symm
    rw [ht] at hand
    simp only [Bool.toNat_true, one_mul] at hand
    constructor
    · unfold twos_complement24
      rw [hand]
      push_cast
      ring
    · unfold twos_complement24
      rw [hand, hmask]
      have : p % 8388608 + 8388608 = p := by omega
      push_cast
      omega
  · intro ht
    have hdiv : ¬(p / 8388608 % 2 = 1) := by
      rw [ht] at htb
      exact of_decide_eq_false htb.symm
    rw [ht] at hand
    simp only [Bool.toNat_false, zero_mul] at hand
    unfold twos_complement24
    rw [hand, hmask]
    have : p % 8388608 = p := by omega
    push_cast
    omega

/-- Witness for C1 at the concrete patterns `0xffffff` and `1`. -/
theorem read_raw_twos_complement_decode_witness :
    twos_complement24 0xffffff = (0xffffff : Int) - 0x1000000 ∧
    twos_complement24 1 = (1 : Int) :=
  ⟨((read_raw_twos_complement_decode 0xffffff (by norm_num)).1 (by decide)).2,
   (read_raw_twos_complement_decode 1 (by norm_num)).2 (by decide)⟩

/-- C2: after the 24 data-bit pulse triples, one `_read_raw` emits exactly
`N` additional clock high/low pulse pairs with `N = 1` for gain 128,
`N = 3` for gain 64 and `N = 2` for gain 32. -/
theorem read_raw_trailing_gain_pulses (g : Nat) (hg : g = 128 ∨ g = 64 ∨ g = 32) :
    read_raw_events g =
      (List.replicate 24 [Ev.sckHigh, Ev.sckLow, Ev.sampleDt]).flatten ++
        (List.replicate (if g = 128 then 1 else if g = 64 then 3 else 2)
          [Ev.sckHigh, Ev.sckLow]).flatten ∧
    (read_raw_events g).count Ev.sckHigh =
      24 + (if g = 128 then 1 else if g = 64 then 3 else 2) ∧
    (read_raw_events g).count Ev.sckLow =
      24 + (if g = 128 then 1 else if g = 64 then 3 else 2) := by
  rcases hg with h | h | h <;> subst h <;> exact ⟨rfl, rfl, rfl⟩

/-- Witness for C2 at gain 64: three trailing pulse pairs. -/
theorem read_raw_trailing_gain_pulses_witness :
    read_raw_events 64 =
      (List.replicate 24 [Ev.sckHigh, Ev.sckLow, Ev.sampleDt]).flatten ++
        (List.replicate 3 [Ev.sckHigh, Ev.sckLow]).flatten ∧
    (read_raw_events 64).count Ev.sckHigh = 24 + 3 ∧
    (read_raw_events 64).count Ev.sckLow = 24 + 3 :=
  read_raw_trailing_gain_pulses 64 (Or.inr (Or.inl rfl))

/-- The median of a nonempty collection exists: `statistics.median` only
raises on empty data. -/
theorem median_of_ne_nil (xs : List ℚ) (h : xs.length ≠ 0) :
    ∃ m, median xs = some m := by
  unfold median
  simp only [List.length_insertionSort]
  rw [if_neg h]
  by_cases h2 : xs.length % 2 = 1
  · rw [if_pos h2]
    exact ⟨_, rfl⟩
  · rw [if_neg h2]
    exact ⟨_, rfl⟩

/-- C3: `tare` over `n > 0` samples consumes, after the auto-wake, exactly
the first `n` frames of the stream, sets `offset` to the truncated median
of those frames, returns the new offset and changes nothing else; on the
frames 10, 12, 11, 1000, 9 the resulting offset is 11. -/
theorem tare_median_offset (st : HX711) (stream : List Int) (n : Nat)
    (hn : 0 < n)
    (hlen : n ≤ (if st.power_down then stream.drop 1 else stream).length) :
    (∃ m,
      median (((if st.power_down then stream.drop 1 else stream).take n).map
          (fun v : Int => (v : ℚ))) = some m ∧
      tare st stream n =
        (Except.ok (int_of_rat m),
          { st with power_down := false, offset := int_of_rat m },
          (if st.power_down then stream.drop 1 else stream).drop n)) ∧
    tare { gain := 128, offset := 0, scale := 1, power_down := false }
        [10, 12, 11, 1000, 9] 5 =
      (Except.ok 11,
        { gain := 128, offset := 11, scale := 1, power_down := false }, []) := by
  constructor
  · have hne : (((if st.power_down then stream.drop 1 else stream).take n).map
        (fun v : Int => (v : ℚ))).length ≠ 0 := by
      rw [List.length_map, List.length_take]
      omega
    obtain ⟨m, hm⟩ := median_of_ne_nil _ hne
    refine ⟨m, hm, ?_⟩
    rcases st with ⟨g, o, sc, pd⟩
    cases pd <;> simp_all [tare, auto_wake, set_power_down]
  · rfl

/-- Witness for C3: a concrete awake state and the five frames from the
specification. -/
theorem tare_median_offset_witness :
    (∃ m,
      median (([10, 12, 11, 1000, 9] : List Int).map (fun v : Int => (v : ℚ))) = some m ∧
      tare { gain := 128, offset := 0, scale := 1, power_down := false }
          [10, 12, 11, 1000, 9] 5 =
        (Except.ok (int_of_rat m),
          { gain := 128, offset := int_of_rat m, scale := 1, power_down := false },
          [])) ∧
    tare { gain := 128, offset := 0, scale := 1, power_down := false }
        [10, 12, 11, 1000, 9] 5 =
      (Except.ok 11,
        { gain := 128, offset := 11, scale := 1, power_down := false }, []) :=
  tare_median_offset
    { gain := 128, offset := 0, scale := 1, power_down := false }
    [10, 12, 11, 1000, 9] 5 (by decide) (by decide)

/-- C4: `calibrate` over `n > 0` samples consumes, after the auto-wake,
exactly the first `n` frames, subtracts the current `offset` from each,
sets `scale` to the median of the adjusted values divided by the reference
weight, returns the new scale and leaves `offset` unchanged; on adjusted
values 198, 202, 200 with reference weight 100 the resulting scale is 2. -/
theorem calibrate_scale_median (st : HX711) (stream : List Int) (w : ℚ) (n : Nat)
    (hn : 0 < n) (hw : w ≠ 0)
    (hlen : n ≤ (if st.power_down then stream.drop 1 else stream).length) :
    (∃ m,
      median (((if st.power_down then stream.drop 1 else stream).take n).map
          (fun v : Int => (v : ℚ) - (st.offset : ℚ))) = some m ∧
      calibrate st stream w n =
        (Except.ok (m / w),
          { st with power_down := false, scale := m / w },
          (if st.power_down then stream.drop 1 else stream).drop n)) ∧
    calibrate { gain := 128, offset := 0, scale := 1, power_down := false }
        [198, 202, 200] 100 3 =
      (Except.ok 2,
        { gain := 128, offset := 0, scale := 2, power_down := false }, []) := by
  constructor
  · have hne : (((if st.power_down then stream.drop 1 else stream).take n).map
        (fun v : Int => (v : ℚ) - (st.offset : ℚ))).length ≠ 0 := by
      rw [List.length_map, List.length_take]
      omega
    obtain ⟨m, hm⟩ := median_of_ne_nil _ hne
    refine ⟨m, hm, ?_⟩
    rcases st with ⟨g, o, sc, pd⟩
    cases pd <;> simp_all [calibrate, auto_wake, set_power_down]
  · norm_num [calibrate, auto_wake, set_power_down, median, List.insertionSort,
      List.orderedInsert]

/-- Witness for C4: the three adjusted frames from the specification with
reference weight 100. -/
theorem calibrate_scale_median_witness :
    (∃ m,
      median (([198, 202, 200] : List Int).map
          (fun v : Int => (v : ℚ) - ((0 : Int) : ℚ))) = some m ∧
      calibrate { gain := 128, offset := 0, scale := 1, power_down := false }
          [198, 202, 200] 100 3 =
        (Except.ok (m / 100),
          { gain := 128, offset := 0, scale := m / 100, power_down := false },
          [])) ∧
    calibrate { gain := 128, offset := 0, scale := 1, power_down := false }
        [198, 202, 200] 100 3 =
      (Except.ok 2,
        { gain := 128, offset := 0, scale := 2, power_down := false }, []) :=
  calibrate_scale_median
    { gain := 128, offset := 0, scale := 1, power_down := false }
    [198, 202, 200] 100 3 (by decide) (by decide) (by decide)

/-- C5: `get_weight` with a nonzero `scale` consumes, after the auto-wake,
exactly one frame `r` and returns `(r - offset) / scale`, leaving `offset`,
`scale` and `gain` unchanged; with offset 11, scale 2 and frame 111 the
result is 50. -/
theorem get_weight_single_frame (st : HX711) (stream : List Int)
    (hs : st.scale ≠ 0)
    (hlen : 1 ≤ (if st.power_down then stream.drop 1 else stream).length) :
    get_weight st stream =
      (Except.ok
          (((((if st.power_down then stream.drop 1 else stream).headD 0 : Int) : ℚ)
              - (st.offset : ℚ)) / st.scale),
        { st with power_down := false },
        (if st.power_down then stream.drop 1 else stream).drop 1) ∧
    get_weight { gain := 128, offset := 11, scale := 2, power_down := false } [111] =
      (Except.ok 50,
        { gain := 128, offset := 11, scale := 2, power_down := false }, []) := by
  constructor
  · rcases st with ⟨g, o, sc, pd⟩
    cases pd <;> simp_all [get_weight, auto_wake, set_power_down]
  · norm_num [get_weight, auto_wake, set_power_down]

/-- Witness for C5: offset 11, scale 2, one frame reading 111. -/
theorem get_weight_single_frame_witness :
    get_weight { gain := 128, offset := 11, scale := 2, power_down := false } [111] =
      (Except.ok ((((111 : Int) : ℚ) - ((11 : Int) : ℚ)) / 2),
        { gain := 128, offset := 11, scale := 2, power_down := false }, []) ∧
    get_weight { gain := 128, offset := 11, scale := 2, power_down := false } [111] =
      (Except.ok 50,
        { gain := 128, offset := 11, scale := 2, power_down := false }, []) :=
  get_weight_single_frame
    { gain := 128, offset := 11, scale := 2, power_down := false }
    [111] (by decide) (by decide)

/-- C6: `calibrate` with a zero reference weight raises `ZeroDivisionError`
instead of silently producing a scale, and both `scale` and `offset` are
unchanged by the failed call. -/
theorem calibrate_zero_reference_error (st : HX711) (stream : List Int) (n : Nat)
    (hn : 0 < n)
    (hlen : n ≤ (if st.power_down then stream.drop 1 else stream).length) :
    (calibrate st stream 0 n).1 =
      Except.error ("ZeroDivisionError: float division by zero") ∧
    ((calibrate st stream 0 n).2.1).scale = st.scale ∧
    ((calibrate st stream 0 n).2.1).offset = st.offset := by
  have hne : (((if st.power_down then stream.drop 1 else stream).take n).map
      (fun v : Int => (v : ℚ) - (st.offset : ℚ))).length ≠ 0 := by
    rw [List.length_map, List.length_take]
    omega
  obtain ⟨m, hm⟩ := median_of_ne_nil _ hne
  rcases st with ⟨g, o, sc, pd⟩
  cases pd <;> simp_all [calibrate, auto_wake, set_power_down]

/-- Witness for C6: a single frame and reference weight zero. -/
theorem calibrate_zero_reference_error_witness :
    (calibrate { gain := 128, offset := 0, scale := 1, power_down := false }
        [5] 0 1).1 =
      Except.error ("ZeroDivisionError: float division by zero") ∧
    ((calibrate { gain := 128, offset := 0, scale := 1, power_down := false }
        [5] 0 1).2.1).scale = 1 ∧
    ((calibrate { gain := 128, offset := 0, scale := 1, power_down := false }
        [5] 0 1).2.1).offset = 0 :=
  calibrate_zero_reference_error
    { gain := 128, offset := 0, scale := 1, power_down := false }
    [5] 1 (by decide) (by decide)

/-- C7: a gain outside 128, 64, 32 is rejected synchronously by both the
constructor and the gain setter before any state mutation or line
activity: the constructor produces no state and the setter returns the
state and the stream untouched, so the current gain is unchanged. -/
theorem invalid_gain_rejected (v : Nat) (hv : ¬(v = 128 ∨ v = 64 ∨ v = 32))
    (st : HX711) (stream : List Int) :
    hx711_init v stream =
      Except.error ("ValueError: gain must be one of 128, 64, 32.") ∧
    set_gain st stream v =
      (Except.error ("ValueError: gain must be one of 128, 64, 32."), st, stream) := by
  refine ⟨?_, ?_⟩
  · unfold hx711_init
    rw [if_pos hv]
  · unfold set_gain
    rw [if_pos hv]

/-- Witness for C7: gain 100 against a concrete state. -/
theorem invalid_gain_rejected_witness :
    hx711_init 100 [7] =
      Except.error ("ValueError: gain must be one of 128, 64, 32.") ∧
    set_gain { gain := 128, offset := 0, scale := 1, power_down := false } [7] 100 =
      (Except.error ("ValueError: gain must be one of 128, 64, 32."),
        { gain := 128, offset := 0, scale := 1, power_down := false }, [7]) :=
  invalid_gain_rejected 100 (by decide)
    { gain := 128, offset := 0, scale := 1, power_down := false } [7]

/-- C8 counterexample: with the device powered down, reading the `gain`
property or the `power_down` property leaves `power_down` equal to `true`:
neither getter performs the auto-wake transition the claim asserts. -/
theorem getter_no_auto_wake_cex :
    ((gain_get { gain := 128, offset := 0, scale := 1, power_down := true }).2).power_down
        = true ∧
    ((power_down_get { gain := 128, offset := 0, scale := 1, power_down := true }).2).power_down
        = true :=
  ⟨rfl, rfl⟩

/-- C8 amended: the `gain` and `power_down` getters return the stored value
and have no side effect at all; the state, powered down or not, is
returned unchanged. -/
theorem getters_return_stored_value (st : HX711) :
    gain_get st = (st.gain, st) ∧ power_down_get st = (st.power_down, st) :=
  ⟨rfl, rfl⟩

/-- C9: setting `power_down` to its current value is a no-op with no line
activity; powering down drives the clock low then high and sleeps with the
clock held high for at least 60 microseconds; powering up drives the clock
low and performs exactly one discard read, after which `power_down` is
false. -/
theorem power_down_transitions (st : HX711) (v : Bool) :
    (v = st.power_down → set_power_down st v = (st, [])) ∧
    (st.power_down = false →
      ∃ d, set_power_down st true =
          ({ st with power_down := true }, [Ev.sckLow, Ev.sckHigh, Ev.sleepUs d]) ∧
        d ≥ 60) ∧
    (st.power_down = true →
      set_power_down st false =
        ({ st with power_down := false }, [Ev.sckLow, Ev.rawRead]) ∧
      [Ev.sckLow, Ev.rawRead].count Ev.rawRead = 1 ∧
      ((set_power_down st false).1).power_down = false) := by
  refine ⟨?_, ?_, ?_⟩
  · intro h
    unfold set_power_down
    rw [if_pos h]
  · intro h
    refine ⟨60, ?_, by norm_num⟩
    unfold set_power_down
    rw [if_neg (by simp [h]), if_pos rfl]
  · intro h
    have h1 : set_power_down st false =
        ({ st with power_down := false }, [Ev.sckLow, Ev.rawRead]) := by
      unfold set_power_down
      rw [if_neg (by simp [h]), if_neg (by simp)]
    exact ⟨h1, rfl, by rw [h1]⟩

/-- Witness for C9: the no-op and the powering-down transition from a
concrete awake state. -/
theorem power_down_transitions_witness :
    set_power_down { gain := 128, offset := 0, scale := 1, power_down := false } false =
      ({ gain := 128, offset := 0, scale := 1, power_down := false }, []) ∧
    (∃ d,
      set_power_down { gain := 128, offset := 0, scale := 1, power_down := false } true =
        ({ gain := 128, offset := 0, scale := 1, power_down := true },
          [Ev.sckLow, Ev.sckHigh, Ev.sleepUs d]) ∧
      d ≥ 60) :=
  ⟨(power_down_transitions
      { gain := 128, offset := 0, scale := 1, power_down := false } false).1 rfl,
   (power_down_transitions
      { gain := 128, offset := 0, scale := 1, power_down := false } false).2.1 rfl⟩

/-- C10: with zero samples, `tare` and `calibrate` collect no frames (the
stream beyond the auto-wake is untouched), raise the empty-data
`StatisticsError` from `median`, return no numeric result, and leave both
`offset` and `scale` unchanged. -/
theorem zero_samples_error (st : HX711) (stream : List Int) (w : ℚ) :
    (tare st stream 0).1 =
      Except.error ("statistics.StatisticsError: no median for empty data") ∧
    ((tare st stream 0).2.1).offset = st.offset ∧
    ((tare st stream 0).2.1).scale = st.scale ∧
    (tare st stream 0).2.2 = (if st.power_down then stream.drop 1 else stream) ∧
    (calibrate st stream w 0).1 =
      Except.error ("statistics.StatisticsError: no median for empty data") ∧
    ((calibrate st stream w 0).2.1).offset = st.offset ∧
    ((calibrate st stream w 0).2.1).scale = st.scale ∧
    (calibrate st stream w 0).2.2 = (if st.power_down then stream.drop 1 else stream) := by
  rcases st with ⟨g, o, sc, pd⟩
  cases pd <;> simp [tare, calibrate, auto_wake, set_power_down, median]

end HX711Model
